import Mathlib

/-!
Verification of the Medication Interaction Checker backend.

This file gives a shallow embedding of the interaction/severity resolution
pipeline of the repository (Backend/app.py, which registers the live Flask
routes, and Backend/standardization.py for the name-standardization route
variant that validates drug names with a regex).  Python strings are embedded
as Lean String (whose logical model is a list of Char); Python string
primitives that the code uses (lower, strip, split, join, startswith,
min/max comparison, int parsing, truthiness) are re-implemented structurally
over the character list so that every definition is executable and
kernel-reducible.  The three sqlite caches are embedded as association lists
of (key, value, timestamp) rows with the 30-day TTL checked at read time;
datetime.now() is passed in explicitly as a natural number of seconds.
External collaborators (the Gemini generative model, the RxNorm HTTP
endpoints) are passed in as oracle functions.
-/

/-! ## Python string primitives -/

/-- Whitespace characters stripped by Python str.strip (ASCII subset). -/
def isPySpace (c : Char) : Bool := c ∈ [' ', '\t', '\n', '\r', '\x0b', '\x0c']

/-- Python str.strip(): remove leading and trailing whitespace. -/
def pyStrip (s : String) : String :=
  ⟨((s.data.dropWhile isPySpace).reverse.dropWhile isPySpace).reverse⟩

/-- ASCII lower-casing of one character, as Python str.lower does on ASCII. -/
def lowerChar (c : Char) : Char :=
  if 65 ≤ c.toNat && c.toNat ≤ 90 then Char.ofNat (c.toNat + 32) else c

/-- Python str.lower() (ASCII; drug names and rule keys in the repo are ASCII). -/
def pyLower (s : String) : String := ⟨s.data.map lowerChar⟩

/-- Lexicographic comparison of character lists by code point, the order
Python uses for str comparison. -/
def ltChars : List Char → List Char → Bool
  | [], [] => false
  | [], _ :: _ => true
  | _ :: _, [] => false
  | a :: as, b :: bs =>
    if a.toNat < b.toNat then true
    else if b.toNat < a.toNat then false
    else ltChars as bs

/-- Python str less-than. -/
def strLtB (a b : String) : Bool := ltChars a.data b.data

/-- Python min(a, b) on two strings (returns the first argument on ties). -/
def pyMin (a b : String) : String := if strLtB b a then b else a

/-- Python max(a, b) on two strings (returns the first argument on ties). -/
def pyMax (a b : String) : String := if strLtB a b then b else a

/-- Python s.split(sep) for a one-character separator, on character lists. -/
def splitChars (sep : Char) : List Char → List (List Char)
  | [] => [[]]
  | c :: cs =>
    if c = sep then [] :: splitChars sep cs
    else
      match splitChars sep cs with
      | [] => [[c]]
      | g :: gs => (c :: g) :: gs

/-- Python sep.join(groups) for a one-character separator, on character lists. -/
def joinChars (sep : Char) : List (List Char) → List Char
  | [] => []
  | [g] => g
  | g :: gs => g ++ sep :: joinChars sep gs

/-- Python ",".join on a list of strings. -/
def commaJoin (l : List String) : String := ⟨joinChars ',' (l.map String.data)⟩

/-- Python s.split(",") on a string. -/
def commaSplit (s : String) : List String := (splitChars ',' s.data).map String.mk

/-- Prefix test on character lists. -/
def isPrefixChars : List Char → List Char → Bool
  | [], _ => true
  | _ :: _, [] => false
  | p :: ps, c :: cs => p == c && isPrefixChars ps cs

/-- Python s.startswith(p). -/
def pyStartsWith (s p : String) : Bool := isPrefixChars p.data s.data

/-- Numeric value of a decimal digit character, if it is one. -/
def digitVal? (c : Char) : Option Nat := if c.isDigit then some (c.toNat - 48) else none

/-- Accumulating decimal parser over a character list. -/
def digitsToNatAux : List Char → Nat → Option Nat
  | [], acc => some acc
  | c :: cs, acc =>
    match digitVal? c with
    | some d => digitsToNatAux cs (acc * 10 + d)
    | none => none

/-- Python int(s) restricted to non-negative decimal literals, the only form
appearing in the static severity rule table ("age > 65"); none models the
ValueError int() raises on anything else. -/
def pyIntParse? (s : String) : Option Nat :=
  match s.data with
  | [] => none
  | c :: cs => digitsToNatAux (c :: cs) 0

/-- Python truthiness of an optional string (None and the empty string are
falsy). -/
def truthyStr : Option String → Bool
  | none => false
  | some s => s != ""

/-! ## Cache store (the three sqlite tables) -/

/-- The 30-day TTL used by all three caches, in seconds. -/
def ttlSeconds : Nat := 30 * 86400

/-- Freshness check performed at read time: datetime.now() minus the stored
last_updated timestamp must be strictly below 30 days. -/
def freshAt (now ts : Nat) : Bool := now - ts < ttlSeconds

/-- Row lookup by primary key in an embedded cache table. -/
def cacheFind {V : Type} (c : List (String × V × Nat)) (k : String) : Option (V × Nat) :=
  (c.find? (fun r => r.1 == k)).map (fun r => r.2)

/-- INSERT OR REPLACE of a row keyed by k, stamped with the current time. -/
def cachePut {V : Type} (c : List (String × V × Nat)) (k : String) (v : V) (now : Nat) :
    List (String × V × Nat) :=
  (k, v, now) :: c.filter (fun r => r.1 != k)

/-- The rxnorm_cache table: drug_name to (rxcui, generic_name). -/
abbrev NameCache := List (String × (Option String × Option String) × Nat)

/-- The interactions_cache table: drug_pair to (interaction, details). -/
abbrev InteractionCache := List (String × (Option String × Option String) × Nat)

/-- The severity_cache table: interaction_key to
(severity, patient_factors, suggestions), the two lists stored comma-joined. -/
abbrev SeverityCache := List (String × (String × String × String) × Nat)

/-- get_cached_drug of app.py/standardization.py: key is the lower-cased
name; an expired or missing row yields (None, None). -/
def get_cached_drug (c : NameCache) (now : Nat) (drug_name : String) :
    Option String × Option String :=
  match cacheFind c (pyLower drug_name) with
  | some (v, ts) => if freshAt now ts then v else (none, none)
  | none => (none, none)

/-- cache_drug of app.py/standardization.py. -/
def cache_drug (c : NameCache) (now : Nat) (drug_name : String)
    (rxcui generic_name : Option String) : NameCache :=
  cachePut c (pyLower drug_name) (rxcui, generic_name) now

/-- Pair key of the interactions cache: note the source takes min/max of the
names as given, with no lower-casing (unlike the severity cache key). -/
def pairKey (drug1 drug2 : String) : String :=
  pyMin drug1 drug2 ++ ":" ++ pyMax drug1 drug2

/-- get_cached_interaction of app.py (lines 269-285). -/
def get_cached_interaction (c : InteractionCache) (now : Nat) (drug1 drug2 : String) :
    Option (Option String × Option String) :=
  match cacheFind c (pairKey drug1 drug2) with
  | some (v, ts) => if freshAt now ts then some v else none
  | none => none

/-- cache_interaction of app.py (lines 287-297). -/
def cache_interaction (c : InteractionCache) (now : Nat) (drug1 drug2 : String)
    (interaction details : Option String) : InteractionCache :=
  cachePut c (pairKey drug1 drug2) (interaction, details) now

/-- Key of the severity cache: lower-cased sorted drug pair plus lower-cased
interaction text. -/
def interactionKey (drug1 drug2 interaction : String) : String :=
  pyMin (pyLower drug1) (pyLower drug2) ++ ":" ++ pyMax (pyLower drug1) (pyLower drug2)
    ++ ":" ++ pyLower interaction

/-- cache_severity of app.py (lines 432-447): the factor and suggestion lists
are stored comma-joined (empty list stored as the empty string). -/
def cache_severity (c : SeverityCache) (now : Nat) (drug1 drug2 interaction severity : String)
    (patient_factors suggestions : List String) : SeverityCache :=
  cachePut c (interactionKey drug1 drug2 interaction)
    (severity,
      (if patient_factors.isEmpty then "" else commaJoin patient_factors),
      (if suggestions.isEmpty then "" else commaJoin suggestions)) now

/-- get_cached_severity of app.py (lines 406-430): the stored strings are
split back on commas, an empty stored string yielding the empty list. -/
def get_cached_severity (c : SeverityCache) (now : Nat) (drug1 drug2 interaction : String) :
    Option (String × List String × List String) :=
  match cacheFind c (interactionKey drug1 drug2 interaction) with
  | some ((sev, pf, sg), ts) =>
    if freshAt now ts then
      some (sev, (if pf == "" then [] else commaSplit pf),
        (if sg == "" then [] else commaSplit sg))
    else none
  | none => none

/-! ## Interaction resolver (app.py lines 299-353) -/

/-- The static interaction rule table of app.py, keyed by lower-cased sorted
generic-name pairs. -/
def INTERACTION_RULES : List ((String × String) × String × String) :=
  [(("atorvastatin", "warfarin"),
     ("Increased risk of bleeding",
      "Atorvastatin may enhance warfarin\x27s anticoagulant effect.")),
   (("ibuprofen", "warfarin"),
     ("Increased risk of bleeding",
      "Ibuprofen may increase warfarin\x27s anticoagulant effect due to antiplatelet activity.")),
   (("fluoxetine", "warfarin"),
     ("Increased risk of bleeding",
      "Fluoxetine may inhibit warfarin\x27s metabolism, increasing bleeding risk.")),
   (("amiodarone", "warfarin"),
     ("Increased anticoagulant effect",
      "Amiodarone inhibits warfarin\x27s metabolism, leading to higher INR.")),
   (("sertraline", "ibuprofen"),
     ("Increased risk of gastrointestinal bleeding",
      "Sertraline and ibuprofen together increase the risk of GI bleeding.")),
   (("citalopram", "omeprazole"),
     ("Increased citalopram levels",
      "Omeprazole may inhibit citalopram metabolism, leading to higher levels."))]

/-- Behaviour of one Gemini interaction-rule request: ok carries the parsed
two-field JSON object (interaction, details); error is any raised exception
(network failure, non-JSON response, missing key). -/
abbrev GenOracle := String → String → Except Unit (Option String × Option String)

/-- generate_interaction_rule of app.py (lines 43-66).  On success the parsed
result is returned.  On an exception the except branch executes
`return {"interaction": null, "details": null}`, but `null` is an undefined
Python name, so a NameError is raised out of the function instead of a value
being returned: the error is propagated, not converted to a result. -/
def generate_interaction_rule (gemini : GenOracle) (drug1 drug2 : String) :
    Except Unit (Option String × Option String) :=
  match gemini drug1 drug2 with
  | .ok result => .ok result
  | .error _ => .error ()

/-- query_interaction of app.py (lines 326-353).  Returns the resolved
interaction (none = no interaction), the updated cache, and whether the
generative fallback was invoked.  The whole body is wrapped in try/except
returning None, which is what swallows the NameError raised by
generate_interaction_rule on a provider failure - without reaching the
cache_interaction(None, None) write of the normal negative path. -/
def query_interaction (gemini : GenOracle) (c : InteractionCache) (now : Nat)
    (drug1 drug2 : String) :
    Option (Option String × Option String) × InteractionCache × Bool :=
  match get_cached_interaction c now drug1 drug2 with
  | some cached => (some cached, c, false)
  | none =>
    match INTERACTION_RULES.find?
        (fun r => r.1 == (pyMin (pyLower drug1) (pyLower drug2),
                          pyMax (pyLower drug1) (pyLower drug2))) with
    | some r =>
      (some (some r.2.1, some r.2.2),
        cache_interaction c now drug1 drug2 (some r.2.1) (some r.2.2), false)
    | none =>
      match generate_interaction_rule gemini drug1 drug2 with
      | .error _ => (none, c, true)
      | .ok result =>
        if truthyStr result.1 then
          (some result, cache_interaction c now drug1 drug2 result.1 result.2, true)
        else
          (none, cache_interaction c now drug1 drug2 none none, true)

/-! ## Severity assessor (app.py lines 449-602) -/

/-- One row of the static severity rule table. -/
structure SevRule where
  severity : String
  patient_factors : List String
  conditions : List String
deriving DecidableEq

/-- SEVERITY_RULES of app.py (lines 449-474), in declaration order. -/
def SEVERITY_RULES : List (String × List SevRule) :=
  [("increased risk of bleeding",
    [⟨"critical", ["age > 65", "renal impairment", "history of bleeding"],
      ["hypertension", "ulcers"]⟩,
     ⟨"major", [], []⟩]),
   ("increased anticoagulant effect",
    [⟨"major", ["age > 65"], ["liver disease"]⟩,
     ⟨"moderate", [], []⟩]),
   ("increased risk of gastrointestinal bleeding",
    [⟨"major", ["age > 65", "history of ulcers"], ["gastritis"]⟩,
     ⟨"moderate", [], []⟩]),
   ("increased citalopram levels",
    [⟨"moderate", [], ["hepatic impairment"]⟩,
     ⟨"minor", [], []⟩]),
   ("increased risk of qt prolongation",
    [⟨"critical", ["electrolyte imbalance"], ["arrhythmia"]⟩,
     ⟨"major", [], []⟩]),
   ("increased risk of liver toxicity",
    [⟨"major", ["hepatic impairment"], ["liver disease"]⟩,
     ⟨"moderate", [], []⟩])]

/-- ALTERNATIVE_RULES of app.py (lines 476-483). -/
def ALTERNATIVE_RULES : List ((String × String) × List String) :=
  [(("atorvastatin", "warfarin"), ["rosuvastatin", "monitor INR closely"]),
   (("ibuprofen", "warfarin"), ["acetaminophen", "monitor INR"]),
   (("fluoxetine", "warfarin"), ["sertraline", "monitor INR"]),
   (("amiodarone", "warfarin"), ["dronedarone", "adjust warfarin dose"]),
   (("sertraline", "ibuprofen"), ["paracetamol", "monitor for GI symptoms"]),
   (("citalopram", "omeprazole"), ["escitalopram", "monitor for side effects"])]

/-- The patient record of the severity endpoint.  A field holds none when the
JSON value is null; the route has already checked that the three keys are
present. -/
structure Patient where
  age : Option Int
  weight : Option Int
  conditions : Option (List String)
deriving DecidableEq

/-- Python truthiness of patient.get("age"): None and 0 are falsy. -/
def truthyAge : Option Int → Bool
  | none => false
  | some n => n != 0

/-- Python truthiness of patient.get("conditions"): None and [] are falsy. -/
def truthyConds : Option (List String) → Bool
  | none => false
  | some l => !l.isEmpty

/-- The int(factor.split(">")[1].strip()) computation of get_severity; none
models the ValueError of int() on a non-numeric string. -/
def ageThreshold? (factor : String) : Option Nat :=
  pyIntParse? (pyStrip (((splitChars '>' factor.data).map String.mk).getD 1 ""))

/-- The patient-factor loop of get_severity: a factor starting with "age > "
is met when the age strictly exceeds the parsed threshold, any other factor
is met when it appears verbatim in the conditions list; the first unmet
factor stops the loop.  An unparsable age threshold raises (error). -/
def factorsMet (age : Int) (conds : List String) : List String → Except Unit Bool
  | [] => .ok true
  | f :: fs =>
    if pyStartsWith f "age > " then
      match ageThreshold? f with
      | none => .error ()
      | some t => if age ≤ (t : Int) then .ok false else factorsMet age conds fs
    else
      if conds.contains f then factorsMet age conds fs else .ok false

/-- The rule loop of get_severity: first rule whose conditions are all
present and whose factors are all met wins; no match falls through to
("moderate", []). -/
def evalRules (age : Int) (conds : List String) : List SevRule → Except Unit (String × List String)
  | [] => .ok ("moderate", [])
  | r :: rs =>
    match factorsMet age conds r.patient_factors with
    | .error e => .error e
    | .ok fm =>
      if r.conditions.all (fun cond => conds.contains cond) && fm then
        .ok (r.severity, r.patient_factors)
      else evalRules age conds rs

/-- get_severity of app.py (lines 485-517), taking the interaction text
directly.  A falsy age or conditions short-circuits to ("moderate", []); so
does any exception inside the rule evaluation (the enclosing try/except). -/
def get_severity (interaction_text : String) (patient : Patient) : String × List String :=
  let text := pyLower interaction_text
  if !truthyAge patient.age || !truthyConds patient.conditions then ("moderate", [])
  else
    match SEVERITY_RULES.find? (fun e => e.1 == text) with
    | none => ("moderate", [])
    | some entry =>
      match evalRules (patient.age.getD 0) (patient.conditions.getD []) entry.2 with
      | .ok v => v
      | .error _ => ("moderate", [])

/-- get_alternatives of app.py (lines 519-526). -/
def get_alternatives (drug1 drug2 : String) : List String :=
  match ALTERNATIVE_RULES.find?
      (fun r => r.1 == (pyMin (pyLower drug1) (pyLower drug2),
                        pyMax (pyLower drug1) (pyLower drug2))) with
  | some r => r.2
  | none => []

/-- The parsed result of one Gemini severity request; an exception inside
generate_severity_and_suggestions is caught there and yields
severity = "none" with empty lists, so the outcome is always a value. -/
structure GeminiSeverity where
  severity : String
  patient_factors : List String
  suggestions : List String
deriving DecidableEq

/-- Behaviour of the Gemini severity collaborator. -/
abbrev SevOracle := String → String → String → Patient → GeminiSeverity

/-- generate_severity_and_suggestions of app.py (lines 68-94), abstracted to
its observable outcome. -/
def generate_severity_and_suggestions (gemini : SevOracle)
    (drug1 drug2 interaction : String) (patient : Patient) : GeminiSeverity :=
  gemini drug1 drug2 interaction patient

/-- One assessed interaction in the endpoint response. -/
structure Assessed where
  drug1 : String
  drug2 : String
  interaction : String
  severity : String
  patient_factors : List String
  suggestions : List String
deriving DecidableEq

/-- The per-interaction body of assess_severity (app.py lines 557-593), after
the falsy-field skip: cache lookup, rule evaluation, alternative lookup,
conditional generative override, cache write.  Returns the assessed record,
the updated cache, and whether the generative fallback was invoked. -/
def assessCore (gemini : SevOracle) (c : SeverityCache) (now : Nat)
    (drug1 drug2 interaction_text : String) (patient : Patient) :
    Assessed × SeverityCache × Bool :=
  match get_cached_severity c now drug1 drug2 interaction_text with
  | some (sev, pf, sg) => (⟨drug1, drug2, interaction_text, sev, pf, sg⟩, c, false)
  | none =>
    let sp := get_severity interaction_text patient
    let suggestions := get_alternatives drug1 drug2
    if suggestions.isEmpty || sp.1 == "none" then
      let g := generate_severity_and_suggestions gemini drug1 drug2 interaction_text patient
      let final := if g.severity != "none" then (g.severity, g.patient_factors, g.suggestions)
        else (sp.1, sp.2, suggestions)
      (⟨drug1, drug2, interaction_text, final.1, final.2.1, final.2.2⟩,
        cache_severity c now drug1 drug2 interaction_text final.1 final.2.1 final.2.2, true)
    else
      (⟨drug1, drug2, interaction_text, sp.1, sp.2, suggestions⟩,
        cache_severity c now drug1 drug2 interaction_text sp.1 sp.2 suggestions, false)

/-- One element of the request's interactions list: each field is none when
the key is absent, some none when the JSON value is null. -/
structure RawEntry where
  drug1 : Option (Option String)
  drug2 : Option (Option String)
  interaction : Option (Option String)
deriving DecidableEq

/-- The value interaction.get(field) seen by the loop, with the falsy cases
(missing key, null, empty string) collapsed to the empty string, which is
exactly the set the `not all([...])` skip test rejects. -/
def getField : Option (Option String) → String
  | some (some s) => s
  | _ => ""

/-- Python truthiness of the fetched field. -/
def truthyField (f : Option (Option String)) : Bool := getField f != ""

/-- The 400-validation of the route: every entry must have the three keys. -/
def entryValid (e : RawEntry) : Bool :=
  e.drug1.isSome && e.drug2.isSome && e.interaction.isSome

/-- The for-loop of assess_severity over the interactions list: entries with
a falsy drug1, drug2 or interaction are skipped (no result, no cache write). -/
def assessLoop (gemini : SevOracle) (patient : Patient) (now : Nat) :
    List RawEntry → SeverityCache → List Assessed × SeverityCache
  | [], c => ([], c)
  | e :: rest, c =>
    if truthyField e.drug1 && truthyField e.drug2 && truthyField e.interaction then
      let r := assessCore gemini c now (getField e.drug1) (getField e.drug2)
        (getField e.interaction) patient
      let t := assessLoop gemini patient now rest r.2.1
      (r.1 :: t.1, t.2)
    else
      assessLoop gemini patient now rest c

/-- Outcome of the severity endpoint. -/
inductive SevResponse where
  | ok (assessed : List Assessed)
  | badRequest (message : String)
deriving DecidableEq

/-- HTTP status of a response. -/
def statusOf : SevResponse → Nat
  | .ok _ => 200
  | .badRequest _ => 400

/-- The assess_severity route of app.py (lines 528-598) after body parsing,
with the patient-key presence check modelled as satisfied (the Patient record
always carries the three keys, null values included). -/
def assess_severity_route (gemini : SevOracle) (interactions : List RawEntry)
    (patient : Patient) (c : SeverityCache) (now : Nat) : SevResponse × SeverityCache :=
  if !(interactions.all entryValid) then
    (.badRequest "Each interaction must have drug1, drug2, and interaction", c)
  else
    let r := assessLoop gemini patient now interactions c
    (.ok r.1, r.2)

/-! ## Name standardizer (standardization.py) -/

/-- Characters admitted by the ^[a-zA-Z0-9\s-]+$ validation regex. -/
def validChar (c : Char) : Bool := c.isAlpha || c.isDigit || isPySpace c || c == '-'

/-- The regex test of standardize_drugs: at least one character, all from the
admitted class. -/
def validDrugName (s : String) : Bool := !s.data.isEmpty && s.data.all validChar

/-- Outcome of the exact-match RxNorm request: an HTTP error, or a 200
response whose idGroup holds the given rxcui (none when absent). -/
inductive ExactResp where
  | httpError
  | ok (rxcui : Option String)

/-- Behaviour of the three RxNorm endpoints used by standardization.py:
exact match, approximate match (none = no candidate or error), and the
properties lookup resolving an rxcui to a generic name (none = error). -/
structure RxOracle where
  exact : String → ExactResp
  approx : String → Option String
  props : String → Option String

/-- query_rxnorm of standardization.py (lines 61-96): cache, then exact
match, then approximate match, then properties lookup; only a fully
successful resolution is cached. -/
def query_rxnorm (rxnav : RxOracle) (c : NameCache) (now : Nat) (drug_name : String) :
    (Option String × Option String) × NameCache :=
  let cached := get_cached_drug c now drug_name
  if truthyStr cached.1 && truthyStr cached.2 then (cached, c)
  else
    match rxnav.exact drug_name with
    | .httpError => ((none, none), c)
    | .ok rx0 =>
      match (if truthyStr rx0 then rx0 else rxnav.approx drug_name) with
      | none => ((none, none), c)
      | some rxcui =>
        match rxnav.props rxcui with
        | none => ((none, none), c)
        | some generic_name =>
          ((some rxcui, some generic_name),
            cache_drug c now drug_name (some rxcui) (some generic_name))

/-- One medication of the standardize request. -/
structure Medication where
  name : String
  dosage : String
  frequency : String
deriving DecidableEq

/-- One element of the standardized response list. -/
inductive StdResult where
  | ok (rxnorm_id generic_name dosage frequency : String)
  | err (message : String) (original : Medication)
deriving DecidableEq

/-- The per-medication body of standardize_drugs in standardization.py
(lines 113-129): strip, validate, resolve; failures yield a per-item error
record. -/
def standardizeOne (rxnav : RxOracle) (c : NameCache) (now : Nat) (med : Medication) :
    StdResult × NameCache :=
  let drug_name := pyStrip med.name
  if drug_name == "" || !validDrugName drug_name then
    (.err "Invalid drug name" med, c)
  else
    let q := query_rxnorm rxnav c now drug_name
    if truthyStr q.1.1 && truthyStr q.1.2 then
      (.ok (q.1.1.getD "") (q.1.2.getD "") med.dosage med.frequency, q.2)
    else
      (.err ("Unknown drug: " ++ drug_name) med, q.2)

/-- Gemini oracle that raises on every request (network failure or malformed
response). -/
def failingGemini : GenOracle := fun _ _ => .error ()

/-- Gemini oracle that answers every request with a well-formed genuine
no-interaction object. -/
def silentNoneGemini : GenOracle := fun _ _ => .ok (none, none)

/-- Gemini oracle giving the same fixed positive answer to every request,
hence symmetric in the drug pair. -/
def symWitnessGemini : GenOracle := fun _ _ => .ok (some "x", some "y")

/-! ## Helper lemmas on the string primitives -/

@[simp] theorem mk_data (s : String) : String.mk s.data = s := rfl

theorem strData_inj {a b : String} (h : a.data = b.data) : a = b := by
  cases a; cases b; exact congrArg String.mk h

theorem char_toNat_inj {a b : Char} (h : a.toNat = b.toNat) : a = b :=
  Char.ext (UInt32.ext h)

theorem ltChars_asymm : ∀ (x y : List Char), ltChars x y = true → ltChars y x = false := by
  intro x
  induction x with
  | nil =>
    intro y h
    cases y with
    | nil => simp [ltChars] at h
    | cons b bs => simp [ltChars]
  | cons a as ih =>
    intro y h
    cases y with
    | nil => simp [ltChars] at h
    | cons b bs =>
      simp only [ltChars] at h ⊢
      rcases Nat.lt_trichotomy a.toNat b.toNat with hlt | heq | hgt
      · simp [hlt, Nat.lt_asymm hlt]
      · simp [heq, Nat.lt_irrefl] at h ⊢
        exact ih bs h
      · simp [hgt, Nat.lt_asymm hgt] at h

theorem ltChars_eq_of_not : ∀ (x y : List Char),
    ltChars x y = false → ltChars y x = false → x = y := by
  intro x
  induction x with
  | nil =>
    intro y hxy hyx
    cases y with
    | nil => rfl
    | cons b bs => simp [ltChars] at hxy
  | cons a as ih =>
    intro y hxy hyx
    cases y with
    | nil => simp [ltChars] at hyx
    | cons b bs =>
      simp only [ltChars] at hxy hyx
      rcases Nat.lt_trichotomy a.toNat b.toNat with hlt | heq | hgt
      · simp [hlt] at hxy
      · have hab : a = b := char_toNat_inj heq
        subst hab
        simp [Nat.lt_irrefl] at hxy hyx
        rw [ih bs hxy hyx]
      · simp [hgt] at hyx

theorem strLtB_asymm (a b : String) (h : strLtB a b = true) : strLtB b a = false :=
  ltChars_asymm a.data b.data h

theorem pyMin_comm (a b : String) : pyMin a b = pyMin b a := by
  unfold pyMin
  cases hba : strLtB b a <;> cases hab : strLtB a b <;> simp
  · exact strData_inj (ltChars_eq_of_not a.data b.data hab hba)
  · exact absurd (strLtB_asymm a b hab) (by simp [hba])

theorem pyMax_comm (a b : String) : pyMax a b = pyMax b a := by
  unfold pyMax
  cases hba : strLtB b a <;> cases hab : strLtB a b <;> simp
  · exact strData_inj (ltChars_eq_of_not a.data b.data hab hba)
  · exact absurd (strLtB_asymm a b hab) (by simp [hba])

theorem pairKey_comm (d1 d2 : String) : pairKey d1 d2 = pairKey d2 d1 := by
  unfold pairKey
  rw [pyMin_comm, pyMax_comm]

theorem splitChars_sepFree (sep : Char) :
    ∀ (g : List Char), sep ∉ g → splitChars sep g = [g] := by
  intro g
  induction g with
  | nil => intro _; rfl
  | cons c cs ih =>
    intro h
    have hc : ¬(c = sep) := fun e => h (e ▸ List.mem_cons_self c cs)
    rw [splitChars, if_neg hc, ih (fun hm => h (List.mem_cons_of_mem c hm))]

theorem splitChars_append (sep : Char) :
    ∀ (g r : List Char), sep ∉ g →
      splitChars sep (g ++ sep :: r) = g :: splitChars sep r := by
  intro g
  induction g with
  | nil => intro r _; simp [splitChars]
  | cons c cs ih =>
    intro r h
    have hc : ¬(c = sep) := fun e => h (e ▸ List.mem_cons_self c cs)
    rw [List.cons_append, splitChars, if_neg hc,
      ih r (fun hm => h (List.mem_cons_of_mem c hm))]

theorem splitChars_joinChars (sep : Char) :
    ∀ (l : List (List Char)), l ≠ [] → (∀ g ∈ l, sep ∉ g) →
      splitChars sep (joinChars sep l) = l := by
  intro l
  induction l with
  | nil => intro h _; exact absurd rfl h
  | cons g gs ih =>
    intro _ h
    cases gs with
    | nil =>
      rw [show joinChars sep [g] = g from rfl]
      exact splitChars_sepFree sep g (h g (List.mem_cons_self g []))
    | cons g2 gs2 =>
      rw [show joinChars sep (g :: g2 :: gs2) = g ++ sep :: joinChars sep (g2 :: gs2) from rfl]
      rw [splitChars_append sep g _ (h g (List.mem_cons_self g (g2 :: gs2)))]
      rw [ih (by simp) (fun x hx => h x (List.mem_cons_of_mem g hx))]

theorem commaSplit_commaJoin (l : List String) (hne : l ≠ [])
    (hfree : ∀ s ∈ l, (',' : Char) ∉ s.data) : commaSplit (commaJoin l) = l := by
  unfold commaSplit commaJoin
  rw [show (String.mk (joinChars ',' (l.map String.data))).data
      = joinChars ',' (l.map String.data) from rfl]
  rw [splitChars_joinChars ',' (l.map String.data) (by simpa using hne)
    (by
      intro g hg
      obtain ⟨s, hs, rfl⟩ := List.mem_map.1 hg
      exact hfree s hs)]
  rw [List.map_map]
  have hid : (String.mk ∘ String.data) = id := by
    funext s
    rfl
  rw [hid, List.map_id]

theorem commaJoin_ne_empty (l : List String) (hne : l ≠ [])
    (h : ∀ s ∈ l, s ≠ "") : commaJoin l ≠ "" := by
  unfold commaJoin
  intro e
  have hd : joinChars ',' (l.map String.data) = [] := by
    have h2 := congrArg String.data e
    simpa using h2
  cases l with
  | nil => exact hne rfl
  | cons s ss =>
    cases ss with
    | nil =>
      rw [show joinChars ',' ([s].map String.data) = s.data from rfl] at hd
      exact h s (List.mem_cons_self s []) (strData_inj hd)
    | cons s2 ss2 =>
      rw [show joinChars ',' ((s :: s2 :: ss2).map String.data)
          = s.data ++ ',' :: joinChars ',' ((s2 :: ss2).map String.data) from rfl] at hd
      simp at hd

/-! ## Helper lemmas on the cache store -/

theorem freshAt_self (n : Nat) : freshAt n n = true := by
  unfold freshAt
  rw [Nat.sub_self]
  decide

theorem cacheFind_cachePut {V : Type} (c : List (String × V × Nat)) (k : String) (v : V)
    (now : Nat) : cacheFind (cachePut c k v now) k = some (v, now) := by
  unfold cacheFind cachePut
  simp [List.find?]

theorem get_cached_drug_put (c : NameCache) (now : Nat) (name : String)
    (rxcui generic : Option String) :
    get_cached_drug (cache_drug c now name rxcui generic) now name = (rxcui, generic) := by
  unfold get_cached_drug cache_drug
  rw [cacheFind_cachePut]
  simp [freshAt_self]

theorem get_cached_interaction_put (c : InteractionCache) (now : Nat) (d1 d2 : String)
    (i dt : Option String) :
    get_cached_interaction (cache_interaction c now d1 d2 i dt) now d1 d2 = some (i, dt) := by
  unfold get_cached_interaction cache_interaction
  rw [cacheFind_cachePut]
  simp [freshAt_self]

theorem splitGuard_joinGuard (l : List String) (h : ∀ s ∈ l, s ≠ "" ∧ (',' : Char) ∉ s.data) :
    (if (if l.isEmpty then "" else commaJoin l) == "" then []
      else commaSplit (if l.isEmpty then "" else commaJoin l)) = l := by
  cases l with
  | nil => simp
  | cons s ss =>
    rw [show ((s :: ss).isEmpty) = false from rfl]
    simp only [if_neg Bool.false_ne_true]
    have hne : commaJoin (s :: ss) ≠ "" :=
      commaJoin_ne_empty (s :: ss) (by simp) (fun x hx => (h x hx).1)
    rw [if_neg (by simpa using hne)]
    exact commaSplit_commaJoin (s :: ss) (by simp) (fun x hx => (h x hx).2)

theorem get_cached_severity_put (c : SeverityCache) (now : Nat) (d1 d2 itx sev : String)
    (pf sg : List String)
    (hpf : ∀ s ∈ pf, s ≠ "" ∧ (',' : Char) ∉ s.data)
    (hsg : ∀ s ∈ sg, s ≠ "" ∧ (',' : Char) ∉ s.data) :
    get_cached_severity (cache_severity c now d1 d2 itx sev pf sg) now d1 d2 itx
      = some (sev, pf, sg) := by
  unfold get_cached_severity cache_severity
  rw [cacheFind_cachePut]
  simp only [freshAt_self, if_pos]
  rw [splitGuard_joinGuard pf hpf, splitGuard_joinGuard sg hsg]

theorem get_cached_drug_stale (c : NameCache) (now : Nat) (name : String)
    (v : Option String × Option String) (ts : Nat)
    (hrow : cacheFind c (pyLower name) = some (v, ts)) (hold : ttlSeconds < now - ts) :
    get_cached_drug c now name = (none, none) := by
  unfold get_cached_drug
  rw [hrow]
  have hnf : freshAt now ts = false := by
    unfold freshAt
    simp only [decide_eq_false_iff_not]
    omega
  simp [hnf]

theorem get_cached_interaction_stale (c : InteractionCache) (now : Nat) (d1 d2 : String)
    (v : Option String × Option String) (ts : Nat)
    (hrow : cacheFind c (pairKey d1 d2) = some (v, ts)) (hold : ttlSeconds < now - ts) :
    get_cached_interaction c now d1 d2 = none := by
  unfold get_cached_interaction
  rw [hrow]
  have hnf : freshAt now ts = false := by
    unfold freshAt
    simp only [decide_eq_false_iff_not]
    omega
  simp [hnf]

theorem get_cached_severity_stale (c : SeverityCache) (now : Nat) (d1 d2 itx : String)
    (v : String × String × String) (ts : Nat)
    (hrow : cacheFind c (interactionKey d1 d2 itx) = some (v, ts))
    (hold : ttlSeconds < now - ts) :
    get_cached_severity c now d1 d2 itx = none := by
  unfold get_cached_severity
  rw [hrow]
  have hnf : freshAt now ts = false := by
    unfold freshAt
    simp only [decide_eq_false_iff_not]
    omega
  obtain ⟨s1, s2, s3⟩ := v
  simp [hnf]

theorem get_cached_interaction_comm (c : InteractionCache) (now : Nat) (d1 d2 : String) :
    get_cached_interaction c now d1 d2 = get_cached_interaction c now d2 d1 := by
  unfold get_cached_interaction
  rw [pairKey_comm]

theorem cache_interaction_comm (c : InteractionCache) (now : Nat) (d1 d2 : String)
    (i dt : Option String) :
    cache_interaction c now d1 d2 i dt = cache_interaction c now d2 d1 i dt := by
  unfold cache_interaction
  rw [pairKey_comm]

/-! ## Helper lemmas on the severity rule evaluation -/

theorem evalRules_mem : ∀ (rules : List SevRule) (age : Int) (conds : List String)
    (v : String × List String), evalRules age conds rules = Except.ok v →
    v.1 = "moderate" ∨ v.1 ∈ rules.map SevRule.severity := by
  intro rules
  induction rules with
  | nil =>
    intro age conds v h
    simp [evalRules] at h
    left
    rw [← h]
  | cons r rs ih =>
    intro age conds v h
    simp only [evalRules] at h
    cases hf : factorsMet age conds r.patient_factors with
    | error e =>
      rw [hf] at h
      simp at h
    | ok fm =>
      rw [hf] at h
      by_cases hc : (r.conditions.all (fun cond => conds.contains cond) && fm) = true
      · simp only [hc, if_true] at h
        simp at h
        right
        rw [← h]
        simp
      · simp only [hc, if_false] at h
        rcases ih age conds v h with h1 | h2
        · left
          exact h1
        · right
          simp [h2]

theorem get_severity_mem (t : String) (p : Patient) :
    (get_severity t p).1 ∈ (["critical", "major", "moderate", "minor"] : List String) := by
  unfold get_severity
  by_cases hg : (!truthyAge p.age || !truthyConds p.conditions) = true
  · simp [hg]
  · simp only [hg, Bool.false_eq_true, if_false]
    cases hfind : SEVERITY_RULES.find? (fun e => e.1 == pyLower t) with
    | none => simp
    | some entry =>
      dsimp only
      cases hev : evalRules (p.age.getD 0) (p.conditions.getD []) entry.2 with
      | error e => simp
      | ok v =>
        dsimp only
        have hmem : entry ∈ SEVERITY_RULES := List.mem_of_find?_eq_some hfind
        have htab : ∀ e ∈ SEVERITY_RULES, ∀ r ∈ e.2,
            r.severity ∈ (["critical", "major", "moderate", "minor"] : List String) := by
          decide
        rcases evalRules_mem entry.2 (p.age.getD 0) (p.conditions.getD []) v hev with h1 | h2
        · rw [h1]
          simp
        · obtain ⟨r, hr, hrs⟩ := List.mem_map.1 h2
          rw [← hrs]
          exact htab entry hmem r hr

theorem assessCore_called (gemini : SevOracle) (c : SeverityCache) (now : Nat)
    (d1 d2 itx : String) (p : Patient) :
    (assessCore gemini c now d1 d2 itx p).2.2
      = ((get_cached_severity c now d1 d2 itx).isNone
          && ((get_alternatives d1 d2).isEmpty || (get_severity itx p).1 == "none")) := by
  unfold assessCore
  cases hc : get_cached_severity c now d1 d2 itx with
  | some v =>
    obtain ⟨sev, pf, sg⟩ := v
    simp
  | none =>
    simp only [Option.isNone_none, Bool.true_and]
    cases ht : ((get_alternatives d1 d2).isEmpty || (get_severity itx p).1 == "none") with
    | true => simp [ht]
    | false => simp [ht]

theorem validDrugName_ne_empty {s : String} (h : validDrugName s = true) : (s == "") = false := by
  by_cases he : s = ""
  · subst he
    simp [validDrugName] at h
  · simp [he]

/-! ## Claims -/

/-- C1 counterexample: the claim asserts that for the interaction text
"increased risk of bleeding" a patient of age 70 with conditions
["hypertension"] is assessed "critical" and a patient of age 40 with no
conditions is assessed "major".  Neither holds of get_severity: the critical
rule of SEVERITY_RULES also requires the condition "ulcers" and the factors
"renal impairment" and "history of bleeding", so the first patient falls to
the default branch ("major"); and an empty conditions list is falsy, so the
second patient hits the incomplete-data guard ("moderate"). -/
theorem c1_bleeding_severity_counterexample :
    (get_severity "increased risk of bleeding" ⟨some 70, some 80, some ["hypertension"]⟩).1
        ≠ "critical"
    ∧ (get_severity "increased risk of bleeding" ⟨some 40, some 80, some []⟩).1 ≠ "major" := by
  decide

/-- C1 amended: for the interaction text "increased risk of bleeding",
severity assessment with a patient of age 70 and conditions ["hypertension"]
yields severity "major" with no patient factors (the default branch of the
rule group, since the critical rule also requires "ulcers", "renal
impairment" and "history of bleeding"), and the same interaction with a
patient of age 40 and empty conditions yields "moderate" with no factors
(the falsy-conditions guard fires before any rule is consulted). -/
theorem c1_bleeding_severity_amended :
    get_severity "increased risk of bleeding" ⟨some 70, some 80, some ["hypertension"]⟩
        = ("major", [])
    ∧ get_severity "increased risk of bleeding" ⟨some 40, some 80, some []⟩ = ("moderate", []) := by
  decide

/-- C2: the claim says a generation failure is cached as an explicit
null-interaction entry.  The code disagrees: the except branch of
generate_interaction_rule returns a dict built from the undefined Python
name null, so the handler raises NameError instead; query_interaction
swallows it and returns None with NO cache write.  Evaluated here at the
failing input: with a raising provider the pair (aspirin, caffeine) resolves
to None with the cache left empty and the generator invoked, whereas a
well-formed genuine no-interaction answer does produce the durable
null-interaction cache entry the claim describes. -/
theorem c2_generation_failure_not_cached :
    query_interaction failingGemini [] 0 "aspirin" "caffeine" = (none, [], true)
    ∧ query_interaction silentNoneGemini [] 0 "aspirin" "caffeine"
        = (none, [("aspirin:caffeine", (none, none), 0)], true) :=
  ⟨rfl, rfl⟩

/-- C3 counterexample: a put followed by a get with the same key does not
always return exactly the stored value in the severity namespace, because
the factor and suggestion lists are stored comma-joined and split again on
read: storing the single factor "a,b" reads back as the two factors
"a" and "b". -/
theorem c3_cache_roundtrip_counterexample :
    get_cached_severity (cache_severity [] 0 "aspirin" "warfarin" "x" "major" ["a,b"] [])
        0 "aspirin" "warfarin" "x" ≠ some ("major", ["a,b"], [])
    ∧ get_cached_severity (cache_severity [] 0 "aspirin" "warfarin" "x" "major" ["a,b"] [])
        0 "aspirin" "warfarin" "x" = some ("major", ["a", "b"], []) := by
  decide

/-- C3 amended: in the name and interaction cache namespaces a put followed
immediately by a get with the same key returns exactly the stored value; in
the severity namespace the same holds provided every patient factor and
suggestion string is nonempty and comma-free (the lists are marshalled
through a comma join/split).  In all three namespaces, a get on a row whose
stored timestamp is more than 30 days old returns absent. -/
theorem c3_cache_roundtrip_amended :
    (∀ (c : NameCache) (now : Nat) (name : String) (r g : Option String),
      get_cached_drug (cache_drug c now name r g) now name = (r, g))
    ∧ (∀ (c : InteractionCache) (now : Nat) (d1 d2 : String) (i dt : Option String),
      get_cached_interaction (cache_interaction c now d1 d2 i dt) now d1 d2 = some (i, dt))
    ∧ (∀ (c : SeverityCache) (now : Nat) (d1 d2 itx sev : String) (pf sg : List String),
      (∀ s ∈ pf, s ≠ "" ∧ (',' : Char) ∉ s.data) →
      (∀ s ∈ sg, s ≠ "" ∧ (',' : Char) ∉ s.data) →
      get_cached_severity (cache_severity c now d1 d2 itx sev pf sg) now d1 d2 itx
        = some (sev, pf, sg))
    ∧ (∀ (c : NameCache) (now : Nat) (name : String) (v : Option String × Option String)
        (ts : Nat), cacheFind c (pyLower name) = some (v, ts) → ttlSeconds < now - ts →
      get_cached_drug c now name = (none, none))
    ∧ (∀ (c : InteractionCache) (now : Nat) (d1 d2 : String)
        (v : Option String × Option String) (ts : Nat),
      cacheFind c (pairKey d1 d2) = some (v, ts) → ttlSeconds < now - ts →
      get_cached_interaction c now d1 d2 = none)
    ∧ (∀ (c : SeverityCache) (now : Nat) (d1 d2 itx : String) (v : String × String × String)
        (ts : Nat), cacheFind c (interactionKey d1 d2 itx) = some (v, ts) →
      ttlSeconds < now - ts → get_cached_severity c now d1 d2 itx = none) :=
  ⟨get_cached_drug_put, get_cached_interaction_put, get_cached_severity_put,
    get_cached_drug_stale, get_cached_interaction_stale, get_cached_severity_stale⟩

/-- C3 witness: the amended round-trip and expiry statements instantiated at
concrete rows of each of the three namespaces. -/
theorem c3_cache_roundtrip_amended_witness :
    get_cached_drug (cache_drug [] 5 "Aspirin" (some "1191") (some "aspirin")) 5 "Aspirin"
        = (some "1191", some "aspirin")
    ∧ get_cached_interaction
        (cache_interaction [] 5 "aspirin" "warfarin" (some "i") (some "d")) 5 "aspirin" "warfarin"
        = some (some "i", some "d")
    ∧ ((∀ s ∈ (["age > 65"] : List String), s ≠ "" ∧ (',' : Char) ∉ s.data)
        ∧ (∀ s ∈ (["monitor INR"] : List String), s ≠ "" ∧ (',' : Char) ∉ s.data)
        ∧ get_cached_severity
            (cache_severity [] 5 "a" "b" "x" "major" ["age > 65"] ["monitor INR"]) 5 "a" "b" "x"
            = some ("major", ["age > 65"], ["monitor INR"]))
    ∧ (cacheFind ([("old", ((some "1", some "o") : Option String × Option String), 0)] : NameCache)
          (pyLower "old") = some ((some "1", some "o"), 0)
        ∧ ttlSeconds < 2592001 - 0
        ∧ get_cached_drug [("old", (some "1", some "o"), 0)] 2592001 "old" = (none, none))
    ∧ (cacheFind ([("a:b", ((some "i", some "d") : Option String × Option String), 0)] :
            InteractionCache) (pairKey "a" "b") = some ((some "i", some "d"), 0)
        ∧ ttlSeconds < 2592001 - 0
        ∧ get_cached_interaction [("a:b", (some "i", some "d"), 0)] 2592001 "a" "b" = none)
    ∧ (cacheFind ([("a:b:x", (("major", "", "") : String × String × String), 0)] : SeverityCache)
          (interactionKey "a" "b" "x") = some (("major", "", ""), 0)
        ∧ ttlSeconds < 2592001 - 0
        ∧ get_cached_severity [("a:b:x", ("major", "", ""), 0)] 2592001 "a" "b" "x" = none) :=
  ⟨c3_cache_roundtrip_amended.1 [] 5 "Aspirin" (some "1191") (some "aspirin"),
   c3_cache_roundtrip_amended.2.1 [] 5 "aspirin" "warfarin" (some "i") (some "d"),
   ⟨by decide, by decide,
    c3_cache_roundtrip_amended.2.2.1 [] 5 "a" "b" "x" "major" ["age > 65"] ["monitor INR"]
      (by decide) (by decide)⟩,
   ⟨by decide, by decide,
    c3_cache_roundtrip_amended.2.2.2.1 [("old", (some "1", some "o"), 0)] 2592001 "old"
      (some "1", some "o") 0 (by decide) (by decide)⟩,
   ⟨by decide, by decide,
    c3_cache_roundtrip_amended.2.2.2.2.1 [("a:b", (some "i", some "d"), 0)] 2592001 "a" "b"
      (some "i", some "d") 0 (by decide) (by decide)⟩,
   ⟨by decide, by decide,
    c3_cache_roundtrip_amended.2.2.2.2.2 [("a:b:x", ("major", "", ""), 0)] 2592001 "a" "b" "x"
      ("major", "", "") 0 (by decide) (by decide)⟩⟩

/-- C4: for every pair of drug names and every cache state,
query_interaction gives the same result, the same final cache state and the
same fallback-invocation flag when the two names are swapped, provided the
external generative collaborator answers the swapped request the same way
(the cache key and the rule-table key are both built from the sorted pair,
so the program itself introduces no order dependence). -/
theorem c4_resolve_interaction_order_independent (gemini : GenOracle) (c : InteractionCache)
    (now : Nat) (d1 d2 : String) (hsym : gemini d1 d2 = gemini d2 d1) :
    query_interaction gemini c now d1 d2 = query_interaction gemini c now d2 d1 := by
  unfold query_interaction generate_interaction_rule
  simp only [get_cached_interaction_comm c now d1 d2, pyMin_comm (pyLower d1) (pyLower d2),
    pyMax_comm (pyLower d1) (pyLower d2), cache_interaction_comm c now d1 d2, hsym]

/-- C4 witness: order independence instantiated on an uncached pair resolved
through a fixed (hence symmetric) generative oracle. -/
theorem c4_resolve_interaction_order_independent_witness :
    symWitnessGemini "ibuprofen" "naproxen" = symWitnessGemini "naproxen" "ibuprofen"
    ∧ query_interaction symWitnessGemini [] 3 "ibuprofen" "naproxen"
        = query_interaction symWitnessGemini [] 3 "naproxen" "ibuprofen" :=
  ⟨rfl, c4_resolve_interaction_order_independent symWitnessGemini [] 3 "ibuprofen" "naproxen" rfl⟩

/-- C5 counterexample: the interaction-cache pair key is built from the raw
names, not the lower-cased ones, so the calls ("X","y") and ("x","Y"), which
differ only in letter case, use different keys: an entry written for
("X","y") is not found by a read for ("x","Y"). -/
theorem c5_pair_key_case_sensitivity_counterexample :
    get_cached_interaction (cache_interaction [] 0 "X" "y" (some "i") (some "d")) 0 "x" "Y" = none
    ∧ pairKey "X" "y" ≠ pairKey "x" "Y" := by
  decide

/-- C5 amended: the interaction-cache pair key is built from
(min(a,b), max(a,b)) of the names as given, without case folding, so the key
is order-independent (swapped calls read and write the same entry) but
case-variant calls may use different entries; case insensitivity is instead
achieved by the caller, which lower-cases the generic names before querying. -/
theorem c5_pair_key_amended : ∀ (a b : String) (c : InteractionCache) (now : Nat)
    (i dt : Option String),
    pairKey a b = pairKey b a
    ∧ get_cached_interaction (cache_interaction c now a b i dt) now b a = some (i, dt) := by
  intro a b c now i dt
  refine ⟨pairKey_comm a b, ?_⟩
  rw [get_cached_interaction_comm, get_cached_interaction_put]

/-- C6: with an empty interactions cache, resolving (atorvastatin, warfarin)
yields the interaction "Increased risk of bleeding" from the static rule
table, and the generative fallback is not invoked, whatever the generative
oracle would answer. -/
theorem c6_rule_table_precedence : ∀ (gemini : GenOracle) (now : Nat),
    (query_interaction gemini [] now "atorvastatin" "warfarin").1
      = some (some "Increased risk of bleeding",
          some "Atorvastatin may enhance warfarin\x27s anticoagulant effect.")
    ∧ (query_interaction gemini [] now "atorvastatin" "warfarin").2.2 = false := by
  intro gemini now
  exact ⟨rfl, rfl⟩

/-- C7: for every interaction text, if the patient age or the patient
conditions is missing or falsy, get_severity returns severity "moderate"
with an empty patient-factors list. -/
theorem c7_incomplete_patient_moderate (t : String) (p : Patient)
    (h : truthyAge p.age = false ∨ truthyConds p.conditions = false) :
    get_severity t p = ("moderate", []) := by
  unfold get_severity
  have hg : (!truthyAge p.age || !truthyConds p.conditions) = true := by
    rcases h with h | h <;> simp [h]
  rw [if_pos hg]

/-- C7 witness: a patient with a null age is assessed ("moderate", []) for a
rule-table interaction text. -/
theorem c7_incomplete_patient_moderate_witness :
    (truthyAge (Patient.mk none (some 80) (some ["hypertension"])).age = false
      ∨ truthyConds (Patient.mk none (some 80) (some ["hypertension"])).conditions = false)
    ∧ get_severity "increased risk of bleeding" (Patient.mk none (some 80) (some ["hypertension"]))
        = ("moderate", []) :=
  ⟨Or.inl rfl,
   c7_incomplete_patient_moderate "increased risk of bleeding"
     (Patient.mk none (some 80) (some ["hypertension"])) (Or.inl rfl)⟩

/-- C8: standardizing a name that is empty after trimming or fails the
character-class validation yields the per-item "Invalid drug name" error and
leaves the name cache untouched; and standardizing a valid uncached name for
which neither the exact-match nor the approximate-match path yields an
identifier returns the per-item "Unknown drug" error, also with no cache
write. -/
theorem c8_standardize_negative_not_cached :
    (∀ (rxnav : RxOracle) (c : NameCache) (now : Nat) (med : Medication),
      (pyStrip med.name = "" ∨ validDrugName (pyStrip med.name) = false) →
      standardizeOne rxnav c now med = (.err "Invalid drug name" med, c))
    ∧ (∀ (rxnav : RxOracle) (c : NameCache) (now : Nat) (med : Medication) (rx0 : Option String),
      validDrugName (pyStrip med.name) = true →
      (truthyStr (get_cached_drug c now (pyStrip med.name)).1
        && truthyStr (get_cached_drug c now (pyStrip med.name)).2) = false →
      rxnav.exact (pyStrip med.name) = .ok rx0 →
      truthyStr rx0 = false →
      rxnav.approx (pyStrip med.name) = none →
      standardizeOne rxnav c now med = (.err ("Unknown drug: " ++ pyStrip med.name) med, c)) := by
  constructor
  · intro rxnav c now med h
    unfold standardizeOne
    have hcond : (pyStrip med.name == "" || !validDrugName (pyStrip med.name)) = true := by
      rcases h with h | h <;> simp [h]
    rw [if_pos hcond]
  · intro rxnav c now med rx0 hval hmiss hexact hfalsy happrox
    unfold standardizeOne
    have hcond : (pyStrip med.name == "" || !validDrugName (pyStrip med.name)) = false := by
      rw [validDrugName_ne_empty hval, hval]
      rfl
    rw [if_neg (by simp [hcond])]
    have hq : query_rxnorm rxnav c now (pyStrip med.name) = ((none, none), c) := by
      unfold query_rxnorm
      rw [if_neg (by simp [hmiss]), hexact]
      simp only [hfalsy, Bool.false_eq_true, if_false, happrox]
    rw [hq]
    rfl

/-- C8 witness: the symbol-laden name "@@@" is rejected without touching the
cache, and the valid but unresolvable name " obscurol " yields the
"Unknown drug" error with the cache still empty. -/
theorem c8_standardize_negative_not_cached_witness :
    (pyStrip (Medication.mk "@@@" "10mg" "daily").name = ""
      ∨ validDrugName (pyStrip (Medication.mk "@@@" "10mg" "daily").name) = false)
    ∧ standardizeOne (RxOracle.mk (fun _ => .ok none) (fun _ => none) (fun _ => none)) [] 0
        (Medication.mk "@@@" "10mg" "daily")
        = (.err "Invalid drug name" (Medication.mk "@@@" "10mg" "daily"), [])
    ∧ validDrugName (pyStrip (Medication.mk " obscurol " "10mg" "daily").name) = true
    ∧ standardizeOne (RxOracle.mk (fun _ => .ok none) (fun _ => none) (fun _ => none)) [] 0
        (Medication.mk " obscurol " "10mg" "daily")
        = (.err ("Unknown drug: " ++ pyStrip (Medication.mk " obscurol " "10mg" "daily").name)
            (Medication.mk " obscurol " "10mg" "daily"), []) :=
  ⟨Or.inr (by decide),
   c8_standardize_negative_not_cached.1
     (RxOracle.mk (fun _ => .ok none) (fun _ => none) (fun _ => none)) [] 0
     (Medication.mk "@@@" "10mg" "daily") (Or.inr (by decide)),
   by decide,
   c8_standardize_negative_not_cached.2
     (RxOracle.mk (fun _ => .ok none) (fun _ => none) (fun _ => none)) [] 0
     (Medication.mk " obscurol " "10mg" "daily") none (by decide) (by decide) rfl (by decide) rfl⟩

/-- C9: rule evaluation never produces the severity "none": for every
interaction text and patient, get_severity returns one of critical, major,
moderate or minor (a severity of the static table or the default
"moderate"); and in the per-interaction assessment the generative fallback
is invoked exactly when the cache missed and the suggestions list is empty
or the severity is "none". -/
theorem c9_rule_severity_never_none :
    (∀ (t : String) (p : Patient),
      (get_severity t p).1 ∈ (["critical", "major", "moderate", "minor"] : List String)
      ∧ (get_severity t p).1 ≠ "none")
    ∧ (∀ (gemini : SevOracle) (c : SeverityCache) (now : Nat) (d1 d2 itx : String) (p : Patient),
      (assessCore gemini c now d1 d2 itx p).2.2
        = ((get_cached_severity c now d1 d2 itx).isNone
            && ((get_alternatives d1 d2).isEmpty || (get_severity itx p).1 == "none"))) := by
  constructor
  · intro t p
    have hm := get_severity_mem t p
    refine ⟨hm, ?_⟩
    intro he
    rw [he] at hm
    exact absurd hm (by decide)
  · exact assessCore_called

/-- C10: the severity endpoint silently skips an interaction entry whose
drug1, drug2 or interaction value is falsy (null or empty string): the
request behaves exactly as if the entry were absent (no assessed result, no
cache write), and still succeeds with status 200 when the remaining entries
pass validation, so the assessed list can be shorter than the input list. -/
theorem c10_severity_skips_falsy_entries (e : RawEntry) (rest : List RawEntry)
    (gemini : SevOracle) (p : Patient) (c : SeverityCache) (now : Nat)
    (hv : entryValid e = true)
    (ht : (truthyField e.drug1 && truthyField e.drug2 && truthyField e.interaction) = false) :
    assess_severity_route gemini (e :: rest) p c now = assess_severity_route gemini rest p c now
    ∧ (rest.all entryValid = true →
        statusOf (assess_severity_route gemini (e :: rest) p c now).1 = 200) := by
  have hall : (e :: rest).all entryValid = rest.all entryValid := by
    simp [List.all_cons, hv]
  have hloop : ∀ cc, assessLoop gemini p now (e :: rest) cc = assessLoop gemini p now rest cc := by
    intro cc
    conv_lhs => rw [assessLoop]
    rw [if_neg (by simp [ht])]
  constructor
  · unfold assess_severity_route
    rw [hall, hloop]
  · intro hrest
    unfold assess_severity_route
    rw [hall, hrest]
    rfl

/-- C10 witness: a single entry with an empty drug1 is skipped: the response
equals the empty-request response and the status is 200. -/
theorem c10_severity_skips_falsy_entries_witness :
    entryValid (RawEntry.mk (some (some "")) (some (some "warfarin")) (some (some "x"))) = true
    ∧ (truthyField (RawEntry.mk (some (some "")) (some (some "warfarin")) (some (some "x"))).drug1
        && truthyField
            (RawEntry.mk (some (some "")) (some (some "warfarin")) (some (some "x"))).drug2
        && truthyField
            (RawEntry.mk (some (some "")) (some (some "warfarin")) (some (some "x"))).interaction)
        = false
    ∧ assess_severity_route (fun _ _ _ _ => GeminiSeverity.mk "none" [] [])
        [RawEntry.mk (some (some "")) (some (some "warfarin")) (some (some "x"))]
        (Patient.mk (some 70) (some 80) (some [])) [] 0
        = assess_severity_route (fun _ _ _ _ => GeminiSeverity.mk "none" [] [])
        [] (Patient.mk (some 70) (some 80) (some [])) [] 0
    ∧ statusOf (assess_severity_route (fun _ _ _ _ => GeminiSeverity.mk "none" [] [])
        [RawEntry.mk (some (some "")) (some (some "warfarin")) (some (some "x"))]
        (Patient.mk (some 70) (some 80) (some [])) [] 0).1 = 200 :=
  ⟨rfl, rfl,
   (c10_severity_skips_falsy_entries
     (RawEntry.mk (some (some "")) (some (some "warfarin")) (some (some "x"))) []
     (fun _ _ _ _ => GeminiSeverity.mk "none" [] [])
     (Patient.mk (some 70) (some 80) (some [])) [] 0 rfl rfl).1,
   (c10_severity_skips_falsy_entries
     (RawEntry.mk (some (some "")) (some (some "warfarin")) (some (some "x"))) []
     (fun _ _ _ _ => GeminiSeverity.mk "none" [] [])
     (Patient.mk (some 70) (some 80) (some [])) [] 0 rfl rfl).2 rfl⟩
